import Mathlib

/-!
Verification of the Factory-RD telemetry → alert pipeline.

Shallow embedding of the Python sources:
  backend/app/workers/rule_engine.py   (condition evaluator, cooldown gate, alert message)
  telemetry/schemas.py                 (topic grammar, payload validation)
  telemetry/handlers/ingestion.py      (orchestrator)
  telemetry/handlers/cache.py          (identity cache)
  telemetry/handlers/parameter_discovery.py (parameter registry)
  telemetry/handlers/influx_writer.py  (time-series points)

Machine reals are modelled as rationals: the pipeline only parses decimal
literals and compares / propagates them, never performs rounding arithmetic,
so every float that appears is exactly the decimal rational it was parsed
from, plus the special values nan / inf / -inf which are modelled explicitly.
Timestamps are modelled as rationals (seconds); ISO parsing renders the
calendar fields through an injective encoding, which is faithful because the
pipeline only propagates parsed timestamps and never does arithmetic on them.
-/

set_option maxRecDepth 8192

namespace FactoryRD

/-- A Python float: a finite value (exactly representable here as a rational,
see the header comment) or one of the IEEE special values. -/
inductive PyFloat where
  | finite (q : ℚ)
  | nan
  | inf
  | ninf
deriving DecidableEq

namespace PyFloat

/-- Python `a < b` on floats (IEEE ordering: any comparison with NaN is false). -/
def ltb : PyFloat → PyFloat → Bool
  | finite a, finite b => decide (a < b)
  | finite _, inf => true
  | ninf, finite _ => true
  | ninf, inf => true
  | _, _ => false

/-- Python `a <= b` on floats (any comparison with NaN is false). -/
def leb : PyFloat → PyFloat → Bool
  | nan, _ => false
  | _, nan => false
  | finite a, finite b => decide (a ≤ b)
  | finite _, inf => true
  | ninf, _ => true
  | inf, inf => true
  | _, _ => false

/-- Python `a == b` on floats (NaN is equal to nothing, including itself). -/
def eqb : PyFloat → PyFloat → Bool
  | finite a, finite b => decide (a = b)
  | inf, inf => true
  | ninf, ninf => true
  | _, _ => false

/-- Python `a > b` on floats. -/
def gtb (a b : PyFloat) : Bool := ltb b a

/-- Python `a >= b` on floats. -/
def geb (a b : PyFloat) : Bool := leb b a

/-- Python `a != b` on floats: the exact negation of `==`, hence TRUE when
either side is NaN. -/
def neb (a b : PyFloat) : Bool := !(eqb a b)

end PyFloat

/-- A Python scalar value as it can appear in a decoded JSON document
(condition trees and metrics maps).  `null` is Python `None`; absence of a
dictionary key is modelled by `Option` at the use sites.  Container values
(lists / dicts in scalar positions) are outside the modelled universe. -/
inductive PyVal where
  | int (z : ℤ)
  | float (x : PyFloat)
  | str (s : String)
  | bool (b : Bool)
  | null
deriving DecidableEq

/-- Decimal-fragment parser for Python `float(str)`: optional sign, digits
with at most one decimal point (at least one digit overall), and the special
spellings nan / inf / infinity (case-insensitive).  Python additionally
accepts exponents, underscores and surrounding whitespace; no string with
those features appears anywhere in this development. -/
def strToFloatCore (cs : List Char) : Option PyFloat :=
  let lower := cs.map Char.toLower
  let (neg, body) :=
    match lower with
    | '-' :: rest => (true, rest)
    | '+' :: rest => (false, rest)
    | rest => (false, rest)
  if body = ['n', 'a', 'n'] then some PyFloat.nan
  else if body = ['i', 'n', 'f'] ∨ body = ['i', 'n', 'f', 'i', 'n', 'i', 't', 'y'] then
    some (if neg then PyFloat.ninf else PyFloat.inf)
  else
    let intPart := body.takeWhile (fun c => c.isDigit)
    let rest := body.dropWhile (fun c => c.isDigit)
    let fracPart :=
      match rest with
      | '.' :: fs => if fs.all (fun c => c.isDigit) then some fs else Option.none
      | [] => some []
      | _ => Option.none
    match fracPart with
    | Option.none => Option.none
    | some fs =>
      if intPart = [] ∧ fs = [] then Option.none
      else
        let digitsVal : List Char → ℚ := fun l =>
          l.foldl (fun acc c => acc * 10 + (c.toNat - '0'.toNat : ℕ)) (0 : ℚ)
        let mag : ℚ := digitsVal intPart + digitsVal fs / (10 : ℚ) ^ fs.length
        some (PyFloat.finite (if neg then -mag else mag))

/-- Python `float(s)` on a string. -/
def strToFloat (s : String) : Option PyFloat := strToFloatCore s.toList

/-- Python `float(z)` on an arbitrary-precision int: raises OverflowError
when the magnitude is at least 2^1024 − 2^970, the smallest integer that
rounds beyond the largest finite double; an in-range int is modelled by its
exact value. -/
def pyFloatOfInt (z : ℤ) : Except Unit PyFloat :=
  if 2 ^ 1024 - 2 ^ 970 ≤ z.natAbs then Except.error ()
  else Except.ok (PyFloat.finite z)

/-- Python `float(v)`: the coercion applied by the evaluator to both sides of
a leaf comparison.  Raises (`error`) on `None`, on non-numeric strings, and
on ints beyond the double range. -/
def pyFloatOf : PyVal → Except Unit PyFloat
  | PyVal.int z => pyFloatOfInt z
  | PyVal.float x => Except.ok x
  | PyVal.bool b => Except.ok (PyFloat.finite (if b then 1 else 0))
  | PyVal.str s =>
    match strToFloat s with
    | some x => Except.ok x
    | Option.none => Except.error ()
  | PyVal.null => Except.error ()

/-- Decimal rendering of a rational whose denominator divides a power of ten
(the only finite floats that occur here), matching Python `str` on such
floats: integers render with a trailing `.0`. -/
def ratDecimalString (q : ℚ) : String :=
  let sign := if q < 0 then "-" else ""
  let a := |q|
  if a.den = 1 then sign ++ toString a.num ++ ".0"
  else
    let k := (List.range 40).findIdx (fun k => a.den ∣ 10 ^ (k + 1)) + 1
    let scaled := a * (10 : ℚ) ^ k
    let digits := toString scaled.num
    let digits := if digits.length ≤ k then
        String.mk (List.replicate (k + 1 - digits.length) '0') ++ digits
      else digits
    let ip := digits.toList.take (digits.length - k)
    let fp := digits.toList.drop (digits.length - k)
    sign ++ String.mk ip ++ "." ++ String.mk fp

/-- Python `str(v)` for the scalar values above (used by f-string rendering
in the alert message builder). -/
def pyStr : PyVal → String
  | PyVal.int z => toString z
  | PyVal.float (PyFloat.finite q) => ratDecimalString q
  | PyVal.float PyFloat.nan => "nan"
  | PyVal.float PyFloat.inf => "inf"
  | PyVal.float PyFloat.ninf => "-inf"
  | PyVal.str s => s
  | PyVal.bool b => if b then "True" else "False"
  | PyVal.null => "None"

/-- A metrics map: Python dict with string keys (insertion order, no
duplicate keys in any input considered). -/
def Metrics := List (String × PyVal)

/-- Python `metrics[k]` / `k in metrics` for a string key. -/
def lookupStr (m : Metrics) (k : String) : Option PyVal :=
  (m.find? (fun kv => kv.1 = k)).map (fun kv => kv.2)

/-- Python `metrics.get(p, default)`-style lookup with an arbitrary key value:
only string keys can be present in a metrics dict, so any non-string key
misses. -/
def metricsGet (m : Metrics) : PyVal → Option PyVal
  | PyVal.str s => lookupStr m s
  | _ => Option.none

mutual

/-- A condition tree (rule_engine.py dispatches on the presence of the
`conditions` key: a dict with it is an internal node, one without is a leaf).
`Option` models presence of the respective key; `PyVal.null` a JSON null.
The children live in the isomorphic copy `CondList` of `List Cond` so that
the evaluator can be defined by structural recursion. -/
inductive Cond where
  | node (operator : Option PyVal) (conditions : CondList)
  | leaf (parameter operator value : Option PyVal)

/-- The list of children of an internal node. -/
inductive CondList where
  | nil
  | cons (c : Cond) (cs : CondList)

end

/-- Python falsyness of the children list. -/
def CondList.isEmpty : CondList → Bool
  | CondList.nil => true
  | CondList.cons _ _ => false

/-- Membership of a child in a children list. -/
def CondList.Memb (x : Cond) : CondList → Prop
  | CondList.nil => False
  | CondList.cons c cs => x = c ∨ CondList.Memb x cs

/-- Build a children list from a Lean list (literal convenience). -/
def condList : List Cond → CondList
  | [] => CondList.nil
  | c :: cs => CondList.cons c (condList cs)

/-- Python `.upper()` applied to the `operator` entry of a node: raises
(AttributeError) on any non-string value. -/
def pyUpper : PyVal → Except Unit String
  | PyVal.str s => Except.ok (String.mk (s.toList.map Char.toUpper))
  | _ => Except.error ()

/-- The `OPERATORS` table of rule_engine.py: six comparison lambdas, looked up
with `.get` (absent / non-string / unknown keys miss). -/
def opLookup : Option PyVal → Option (PyFloat → PyFloat → Bool)
  | some (PyVal.str "gt") => some PyFloat.gtb
  | some (PyVal.str "lt") => some PyFloat.ltb
  | some (PyVal.str "gte") => some PyFloat.geb
  | some (PyVal.str "lte") => some PyFloat.leb
  | some (PyVal.str "eq") => some PyFloat.eqb
  | some (PyVal.str "neq") => some PyFloat.neb
  | _ => Option.none

/-- The leaf branch of the evaluator loop: membership test, operator lookup
(each miss appends False), then `operator_func(float(metrics[param]),
float(cond["value"]))`; a missing `value` key raises KeyError and a
non-coercible value raises inside `float`, both surfacing as `error` to the
enclosing node's try/except. -/
def evalLeaf (m : Metrics) (parameter operator value : Option PyVal) :
    Except Unit Bool :=
  match metricsGet m (parameter.getD PyVal.null) with
  | Option.none => Except.ok false
  | some mv =>
    match opLookup operator with
    | Option.none => Except.ok false
    | some f =>
      match pyFloatOf mv with
      | Except.error e => Except.error e
      | Except.ok a =>
        match value with
        | Option.none => Except.error ()
        | some v =>
          match pyFloatOf v with
          | Except.error e => Except.error e
          | Except.ok b => Except.ok (f a b)

mutual

/-- The `results` loop of `evaluate_conditions`: a child carrying a
`conditions` key goes through the recursive `evaluate_conditions` call —
whose own try/except catches every error, inlined here as the match on
`rawEval` — while a bare leaf evaluates directly and may raise to this
enclosing call. -/
def childResults (m : Metrics) : CondList → Except Unit (List Bool)
  | CondList.nil => Except.ok []
  | CondList.cons c cs =>
    match c with
    | Cond.node op conds =>
      let r := match rawEval m (Cond.node op conds) with
        | Except.ok b => b
        | Except.error _ => false
      match childResults m cs with
      | Except.error e => Except.error e
      | Except.ok rs => Except.ok (r :: rs)
    | Cond.leaf p o v =>
      match evalLeaf m p o v with
      | Except.error e => Except.error e
      | Except.ok r =>
        match childResults m cs with
        | Except.error e => Except.error e
        | Except.ok rs => Except.ok (r :: rs)

/-- The body of `evaluate_conditions` inside its try: read and upper-case the
operator (default "AND"), read the conditions list (default empty — a
leaf-shaped dict has none), return False on an empty list, otherwise combine
the children's results with all/any (an unknown internal operator gives
False). -/
def rawEval (m : Metrics) : Cond → Except Unit Bool
  | Cond.leaf _ op _ =>
    -- a leaf-shaped dict at this position has no `conditions` key: the
    -- default [] is empty, so after the operator is upper-cased the body
    -- returns False with no further work
    (match pyUpper (op.getD (PyVal.str "AND")) with
     | Except.error e => Except.error e
     | Except.ok _ => Except.ok false)
  | Cond.node opF cs =>
    match pyUpper (opF.getD (PyVal.str "AND")) with
    | Except.error e => Except.error e
    | Except.ok op =>
      if cs.isEmpty then Except.ok false
      else
        match childResults m cs with
        | Except.error e => Except.error e
        | Except.ok results =>
          if op = "AND" then Except.ok (results.all id)
          else if op = "OR" then Except.ok (results.any id)
          else Except.ok false

end

/-- `evaluate_conditions(condition_tree, metrics)` of rule_engine.py: the
whole body is wrapped in `try: … except Exception: return False`. -/
def evaluate_conditions (t : Cond) (m : Metrics) : Bool :=
  match rawEval m t with
  | Except.ok b => b
  | Except.error _ => false

/-! ## Topic codec (telemetry/schemas.py) -/

/-- Python `s.split("/")` on character lists: splits on every slash and keeps
empty segments, so the result is always non-empty. -/
def splitSlashAux : List Char → List (List Char)
  | [] => [[]]
  | c :: rest =>
    if c = '/' then [] :: splitSlashAux rest
    else
      match splitSlashAux rest with
      | [] => [[c]]
      | h :: t => (c :: h) :: t

/-- Python `topic.split("/")`. -/
def splitSlash (s : String) : List String :=
  (splitSlashAux s.toList).map String.mk

/-- `parse_topic` of telemetry/schemas.py: five slash-delimited segments with
the literals `factories` / `devices` / `telemetry` first, third and fifth;
on success the second and fourth segments are returned as (slug, key), and
any failing check raises `ValueError("Invalid topic format: " + topic)`. -/
def parse_topic (topic : String) : Except String (String × String) :=
  let parts := splitSlash topic
  if parts.length ≠ 5 then Except.error ("Invalid topic format: " ++ topic)
  else if parts.getD 0 "" ≠ "factories" then
    Except.error ("Invalid topic format: " ++ topic)
  else if parts.getD 2 "" ≠ "devices" then
    Except.error ("Invalid topic format: " ++ topic)
  else if parts.getD 4 "" ≠ "telemetry" then
    Except.error ("Invalid topic format: " ++ topic)
  else Except.ok (parts.getD 1 "", parts.getD 3 "")

/-- Modelled from the spec (§4.1 topic grammar), for comparison with
`parse_topic`: five slash-delimited segments, literal first/third/fifth,
NON-EMPTY second and fourth. -/
def topicGrammarSpec (topic : String) : Bool :=
  match splitSlash topic with
  | [p0, s, p2, k, p4] =>
    p0 = "factories" && p2 = "devices" && p4 = "telemetry" &&
      !s.isEmpty && !k.isEmpty
  | _ => false

/-! ## Payload schema (telemetry/schemas.py, pydantic `TelemetryPayload`) -/

/-- A JSON number, as Python's JSON decoding produces it: an int for integer
literals, a float otherwise (the lax parser also admits the NaN / Infinity
literals). -/
inductive JNum where
  | i (z : ℤ)
  | f (x : PyFloat)
deriving DecidableEq

/-- A JSON scalar value in a payload position. -/
inductive JVal where
  | num (n : JNum)
  | str (s : String)
  | bool (b : Bool)
  | null
deriving DecidableEq

/-- The decoded JSON document of a telemetry payload: the two members the
schema reads, each `Option.none` when the member is absent.  (Other members
are ignored by the model; metric values that are containers are outside the
modelled universe.) -/
structure PayloadJson where
  timestamp : Option JVal
  metrics : Option (List (String × JVal))
deriving DecidableEq

/-- The raw bytes handed to `TelemetryPayload.model_validate_json`: either
not valid JSON at all, or a decoded object. -/
inductive RawPayload where
  | malformed
  | obj (p : PayloadJson)
deriving DecidableEq

/-- A validated payload: optional timestamp and the non-empty numeric
metrics map. -/
structure TelemetryPayload where
  timestamp : Option ℚ
  metrics : List (String × JNum)
deriving DecidableEq

/-- Days in a month (pydantic rejects out-of-range calendar dates). -/
def daysInMonth (y m : ℕ) : ℕ :=
  if m = 2 then
    if y % 4 = 0 ∧ (y % 100 ≠ 0 ∨ y % 400 = 0) then 29 else 28
  else if m = 4 ∨ m = 6 ∨ m = 9 ∨ m = 11 then 30
  else 31

/-- Parse the ISO-8601 instant fragment `YYYY-MM-DDTHH:MM:SS` with optional
trailing `Z`, the only datetime shapes this development considers; the
result is an injective encoding of the calendar fields into seconds-like
units (the pipeline only propagates parsed timestamps, see header).
Strings outside this fragment fail, as they do in pydantic when they are not
datetimes at all. -/
def parseIsoDatetime (s : String) : Option ℚ :=
  let cs := match s.toList with
    | l => if l.getLast? = some 'Z' then l.dropLast else l
  match cs with
  | [y1, y2, y3, y4, '-', mo1, mo2, '-', d1, d2, 'T',
     h1, h2, ':', mi1, mi2, ':', s1, s2] =>
    if [y1, y2, y3, y4, mo1, mo2, d1, d2, h1, h2, mi1, mi2, s1, s2].all
        (fun c => c.isDigit) then
      let dv : Char → ℕ := fun c => c.toNat - '0'.toNat
      let y := ((dv y1 * 10 + dv y2) * 10 + dv y3) * 10 + dv y4
      let mo := dv mo1 * 10 + dv mo2
      let d := dv d1 * 10 + dv d2
      let h := dv h1 * 10 + dv h2
      let mi := dv mi1 * 10 + dv mi2
      let sec := dv s1 * 10 + dv s2
      if 1 ≤ mo ∧ mo ≤ 12 ∧ 1 ≤ d ∧ d ≤ daysInMonth y mo ∧
          h ≤ 23 ∧ mi ≤ 59 ∧ sec ≤ 59 then
        some ((((((y * 13 + mo) * 32 + d) * 24 + h) * 60 + mi) * 60 + sec : ℕ))
      else Option.none
    else Option.none
  | _ => Option.none

/-- Pydantic validation of the `timestamp: Optional[datetime] = None` field:
absent or null gives None; a string must parse as a datetime; a number is
accepted as a unix timestamp in lax mode; anything else fails. -/
def validateTimestamp : Option JVal → Except Unit (Option ℚ)
  | Option.none => Except.ok Option.none
  | some JVal.null => Except.ok Option.none
  | some (JVal.str s) =>
    match parseIsoDatetime s with
    | some t => Except.ok (some t)
    | Option.none => Except.error ()
  | some (JVal.num (JNum.i z)) => Except.ok (some (z : ℚ))
  | some (JVal.num (JNum.f (PyFloat.finite q))) => Except.ok (some q)
  | some (JVal.num (JNum.f _)) => Except.error ()
  | some (JVal.bool _) => Except.error ()

/-- Pydantic validation of one `Union[float, int]` metric value: numbers
pass through, numeric strings coerce in lax mode, everything else fails. -/
def validateMetricVal : JVal → Except Unit JNum
  | JVal.num n => Except.ok n
  | JVal.str s =>
    match strToFloat s with
    | some x => Except.ok (JNum.f x)
    | Option.none => Except.error ()
  | JVal.bool _ => Except.error ()
  | JVal.null => Except.error ()

/-- Validate all metric entries in order. -/
def validateMetricList : List (String × JVal) → Except Unit (List (String × JNum))
  | [] => Except.ok []
  | (k, v) :: rest =>
    match validateMetricVal v with
    | Except.error e => Except.error e
    | Except.ok n =>
      match validateMetricList rest with
      | Except.error e => Except.error e
      | Except.ok ns => Except.ok ((k, n) :: ns)

/-- `TelemetryPayload.model_validate_json`: JSON decoding, field validation,
then the `validate_metrics` model validator (non-empty map; the per-value
numeric check holds by construction after field validation). -/
def validatePayload : RawPayload → Except Unit TelemetryPayload
  | RawPayload.malformed => Except.error ()
  | RawPayload.obj p =>
    match validateTimestamp p.timestamp with
    | Except.error e => Except.error e
    | Except.ok ts =>
      match p.metrics with
      | Option.none => Except.error ()
      | some ms =>
        match validateMetricList ms with
        | Except.error e => Except.error e
        | Except.ok ns =>
          if ns.isEmpty then Except.error ()
          else Except.ok { timestamp := ts, metrics := ns }

/-! ## Alert message builder (rule_engine.py `build_alert_message`) -/

/-- One pass of the `build_alert_message` loop over the top-level children:
every child dict carrying a `parameter` key is rendered as
`"<parameter> (<actual>) <operator> <threshold>"` with
`actual = metrics.get(parameter, "?")`; children without the key (in this
model: internal nodes, or leaves whose `parameter` key is absent) are
skipped; a child with `parameter` but without `operator` or `value` raises
KeyError out of the builder. -/
def renderLeafParts (m : Metrics) : CondList → Except Unit (List String)
  | CondList.nil => Except.ok []
  | CondList.cons c cs =>
    match c with
    | Cond.node _ _ => renderLeafParts m cs
    | Cond.leaf Option.none _ _ => renderLeafParts m cs
    | Cond.leaf (some pv) o v =>
      let actual := (metricsGet m pv).getD (PyVal.str "?")
      match o, v with
      | some ov, some vv =>
        match renderLeafParts m cs with
        | Except.error e => Except.error e
        | Except.ok rest =>
          Except.ok ((pyStr pv ++ " (" ++ pyStr actual ++ ") " ++
            pyStr ov ++ " " ++ pyStr vv) :: rest)
      | _, _ => Except.error ()

/-- `build_alert_message(rule_name, conditions, metrics)`: render the
top-level `parameter`-bearing children, join with `" AND "` (or fall back to
`"Condition triggered"`), prefix with the bracketed rule name. -/
def build_alert_message (rule_name : String) (conditions : Cond) (m : Metrics) :
    Except Unit String :=
  let cs := match conditions with
    | Cond.node _ l => l
    | Cond.leaf _ _ _ => CondList.nil
  match renderLeafParts m cs with
  | Except.error e => Except.error e
  | Except.ok parts =>
    Except.ok ("[" ++ rule_name ++ "] " ++
      (if parts.isEmpty then "Condition triggered"
       else String.intercalate " AND " parts))

/-! ## Time-series points (telemetry/handlers/influx_writer.py) -/

/-- An InfluxDB point under construction (the client's builder object). -/
structure Point where
  measurement : String
  tags : List (String × String)
  fields : List (String × PyFloat)
  time : Option ℚ
deriving DecidableEq

/-- `Point(measurement)`. -/
def Point.new (measurement : String) : Point :=
  { measurement := measurement, tags := [], fields := [], time := Option.none }

/-- `.tag(k, v)`. -/
def Point.tag (p : Point) (k v : String) : Point :=
  { p with tags := p.tags ++ [(k, v)] }

/-- `.field(k, x)`. -/
def Point.field (p : Point) (k : String) (x : PyFloat) : Point :=
  { p with fields := p.fields ++ [(k, x)] }

/-- `.time(t)`. -/
def Point.setTime (p : Point) (t : ℚ) : Point :=
  { p with time := some t }

/-- Python `float(v)` on a validated metric value: a stored float passes
through, and an int converts unless its magnitude is at least
2^1024 − 2^970 — the smallest integer that rounds beyond the largest finite
double — in which case `float` raises OverflowError (JSON ints are unbounded
and pydantic's `Union[float, int]` keeps them as ints).  An in-range int is
modelled by its exact value; no theorem below observes the 53-bit rounding
of integers above 2^53. -/
def floatOfNum : JNum → Except Unit PyFloat
  | JNum.i z => pyFloatOfInt z
  | JNum.f x => Except.ok x

/-- `build_points(factory_id, device_id, metrics, timestamp)`: one point per
metrics entry whose `float(value)` conversion succeeds — measurement
`device_metrics`, the three tags rendered with `str(...)`, the single field
`value`, and the message timestamp.  The per-point `try/except` logs and
SKIPS an entry whose conversion raises, continuing with the rest of the
batch; in the modelled universe the tag and time builder calls cannot
raise, so the conversion is the guard's only trigger. -/
def build_points (factory_id device_id : ℤ) (metrics : List (String × JNum))
    (timestamp : ℚ) : List Point :=
  match metrics with
  | [] => []
  | kv :: rest =>
    match floatOfNum kv.2 with
    | Except.ok x =>
      ((((((Point.new "device_metrics").tag "factory_id"
        (toString factory_id)).tag "device_id" (toString device_id)).tag
        "parameter" kv.1).field "value" x).setTime timestamp) ::
        build_points factory_id device_id rest timestamp
    | Except.error _ => build_points factory_id device_id rest timestamp

/-! ## Relational rows and pipeline state
(telemetry/handlers/{cache,parameter_discovery,ingestion}.py over the
SQLAlchemy models of backend/app/models) -/

/-- A `factories` row (models/factory.py), the fields the pipeline touches. -/
structure FactoryRow where
  id : ℤ
  name : String
  slug : String
  timezone : String
deriving DecidableEq

/-- A `devices` row (models/device.py), the fields the pipeline touches
(`manufacturer`, `model`, `region`, `api_key`, audit timestamps are never
read or written by ingestion and are omitted). -/
structure DeviceRow where
  id : ℤ
  factory_id : ℤ
  device_key : String
  name : Option String
  is_active : Bool
  last_seen : Option ℚ
deriving DecidableEq

/-- The device record as cached by `device_to_json` / `device_from_json`
(cache.py): id, factory_id, device_key, name and is_active; `last_seen` is
not serialized. -/
structure DeviceObj where
  id : ℤ
  factory_id : ℤ
  device_key : String
  name : Option String
  is_active : Bool
deriving DecidableEq

/-- `device_to_json` keeps exactly these fields. -/
def deviceObjOfRow (d : DeviceRow) : DeviceObj :=
  { id := d.id, factory_id := d.factory_id, device_key := d.device_key,
    name := d.name, is_active := d.is_active }

/-- A `device_parameters` row (models/device_parameter.py).  The table's only
unique key is the auto-increment primary key `id`: `idx_device_param` on
(device_id, parameter_key) is declared as a plain, NON-unique `Index`. -/
structure ParamRow where
  id : ℤ
  factory_id : ℤ
  device_id : ℤ
  parameter_key : String
  display_name : Option String
  unit : Option String
  data_type : String
  is_kpi_selected : Bool
  discovered_at : ℚ
  updated_at : ℚ
deriving DecidableEq

/-- The task payload handed to `evaluate_rules_task.delay` (the timestamp is
passed as `timestamp.isoformat()`; modelled by its value). -/
structure RuleEvalTask where
  factory_id : ℤ
  device_id : ℤ
  metrics : List (String × JNum)
  timestamp : ℚ
deriving DecidableEq

/-- The mutable state the ingestion pipeline touches: the identity cache
(entries modelled as decoded records; the 60-second TTL is modelled by
presence — an entry present is one whose TTL has not yet expired), the
relational tables with their auto-increment counters, the time-series store
as the list of written points, and the queue of enqueued rule-evaluation
tasks. -/
structure SysState where
  cacheF : List (String × FactoryRow)
  cacheD : List ((ℤ × String) × DeviceObj)
  factories : List FactoryRow
  devices : List DeviceRow
  device_params : List ParamRow
  nextDeviceId : ℤ
  nextParamId : ℤ
  influx : List Point
  tasks : List RuleEvalTask
deriving DecidableEq

/-- `get_factory_by_slug` (cache.py): cache hit returns the decoded entry;
miss queries the store, write-through caches a positive result only, and a
store miss returns None with NO state change (no negative caching). -/
def get_factory_by_slug (st : SysState) (slug : String) :
    Option FactoryRow × SysState :=
  match (st.cacheF.find? (fun e => e.1 = slug)).map (fun e => e.2) with
  | some f => (some f, st)
  | Option.none =>
    match st.factories.find? (fun f => f.slug = slug) with
    | some f => (some f, { st with cacheF := st.cacheF ++ [(slug, f)] })
    | Option.none => (Option.none, st)

/-- `get_or_create_device` (cache.py): cache hit returns the decoded entry;
miss queries the store by (factory_id, device_key); if absent, a new row is
inserted with `is_active=True`, `name=None`, `last_seen=now` and a fresh
auto-increment id; either way the resulting device is cached and returned. -/
def get_or_create_device (st : SysState) (factory_id : ℤ) (device_key : String)
    (now : ℚ) : DeviceObj × SysState :=
  match (st.cacheD.find? (fun e => e.1 = (factory_id, device_key))).map
      (fun e => e.2) with
  | some d => (d, st)
  | Option.none =>
    match st.devices.find?
        (fun d => d.factory_id = factory_id ∧ d.device_key = device_key) with
    | some d =>
      (deviceObjOfRow d,
       { st with cacheD := st.cacheD ++ [((factory_id, device_key), deviceObjOfRow d)] })
    | Option.none =>
      let row : DeviceRow :=
        { id := st.nextDeviceId, factory_id := factory_id,
          device_key := device_key, name := Option.none, is_active := true,
          last_seen := some now }
      (deviceObjOfRow row,
       { st with
          devices := st.devices ++ [row],
          nextDeviceId := st.nextDeviceId + 1,
          cacheD := st.cacheD ++ [((factory_id, device_key), deviceObjOfRow row)] })

/-- `isinstance`-based data-type derivation of `discover_parameters`. -/
def dataTypeOf : JNum → String
  | JNum.f _ => "float"
  | JNum.i _ => "int"

/-- MySQL `INSERT … ON DUPLICATE KEY UPDATE updated_at = :updated_at` against
the `device_parameters` table.  The UPDATE clause fires only when the
inserted row collides on a unique key; the table declares no unique key
other than the auto-increment primary key `id`, and the insert always uses a
fresh id, so the collision branch is unreachable and the statement appends a
new row. -/
def upsertParamRow (tbl : List ParamRow) (fresh : ParamRow) (now : ℚ) :
    List ParamRow :=
  if (tbl.find? (fun r => r.id = fresh.id)).isSome then
    tbl.map (fun r => if r.id = fresh.id then { r with updated_at := now } else r)
  else tbl ++ [fresh]

/-- The per-key body of the `discover_parameters` loop: existence check (used
only for the returned is-new map), then the upsert above with
`display_name` / `unit` defaulted by the INSERT column list,
`is_kpi_selected := true` and both timestamps set to `now`. -/
def discoverStep (factory_id device_id : ℤ) (now : ℚ)
    (acc : List ParamRow × ℤ × List (String × Bool)) (kv : String × JNum) :
    List ParamRow × ℤ × List (String × Bool) :=
  let (tbl, nextId, newly) := acc
  let key := kv.1
  let exists0 :=
    (tbl.find? (fun r => r.device_id = device_id ∧ r.parameter_key = key)).isSome
  let fresh : ParamRow :=
    { id := nextId, factory_id := factory_id, device_id := device_id,
      parameter_key := key, display_name := Option.none, unit := Option.none,
      data_type := dataTypeOf kv.2, is_kpi_selected := true,
      discovered_at := now, updated_at := now }
  (upsertParamRow tbl fresh now, nextId + 1, newly ++ [(key, !exists0)])

/-- `discover_parameters(db, factory_id, device_id, metrics)` over the
parameter table (with its auto-increment counter), returning the updated
table, counter and the key → is-newly-discovered map. -/
def discover_parameters (tbl : List ParamRow) (nextId : ℤ)
    (factory_id device_id : ℤ) (metrics : List (String × JNum)) (now : ℚ) :
    List ParamRow × ℤ × List (String × Bool) :=
  metrics.foldl (discoverStep factory_id device_id now) (tbl, nextId, [])

/-- Step 5 of the orchestrator, lifted to the pipeline state. -/
def discoverInState (st : SysState) (factory_id device_id : ℤ)
    (metrics : List (String × JNum)) (now : ℚ) : SysState :=
  let r := discover_parameters st.device_params st.nextParamId factory_id
    device_id metrics now
  { st with device_params := r.1, nextParamId := r.2.1 }

/-- `write_batch` (influx_writer.py): an empty batch returns early, otherwise
the batch is written; failures are logged and swallowed (the success path is
modelled — the claims below are about what is written, not about loss). -/
def write_batch (st : SysState) (points : List Point) : SysState :=
  if points.isEmpty then st else { st with influx := st.influx ++ points }

/-- Step 7 of the orchestrator: `UPDATE devices SET last_seen = :ts WHERE
id = :device_id`. -/
def updateLastSeen (st : SysState) (device_id : ℤ) (ts : ℚ) : SysState :=
  let upd := fun (d : DeviceRow) =>
    if d.id = device_id then { d with last_seen := some ts } else d
  { st with devices := st.devices.map upd }

/-- Step 8 of the orchestrator: `evaluate_rules_task.delay(...)`. -/
def enqueueRuleEval (st : SysState) (t : RuleEvalTask) : SysState :=
  { st with tasks := st.tasks ++ [t] }

/-- `process_telemetry(topic, payload, db, redis, influx_write_api)`
(ingestion.py), as a deterministic transformer of the pipeline state:
parse topic (on failure: warn and return), validate payload (on failure:
warn and return), pick the message timestamp or fall back to `now`
(`datetime.utcnow()`), resolve the factory (on None: warn and return),
get-or-create the device, discover parameters, build and write the points,
update last_seen, enqueue the rule-evaluation task. -/
def process_telemetry (topic : String) (payload : RawPayload) (now : ℚ)
    (st : SysState) : SysState :=
  match parse_topic topic with
  | Except.error _ => st
  | Except.ok (factory_slug, device_key) =>
    match validatePayload payload with
    | Except.error _ => st
    | Except.ok data =>
      let timestamp := data.timestamp.getD now
      let (factory?, st1) := get_factory_by_slug st factory_slug
      match factory? with
      | Option.none => st1
      | some factory =>
        let (device, st2) := get_or_create_device st1 factory.id device_key now
        let st3 := discoverInState st2 factory.id device.id data.metrics now
        let points := build_points factory.id device.id data.metrics timestamp
        let st4 := write_batch st3 points
        let st5 := updateLastSeen st4 device.id timestamp
        enqueueRuleEval st5
          { factory_id := factory.id, device_id := device.id,
            metrics := data.metrics, timestamp := timestamp }

/-! ## Cooldown gate and alert materialization (rule_engine.py
`is_in_cooldown`, `evaluate_rules_task`), restricted to one (rule, device)
pair -/

/-- One task invocation's interaction with a fixed (rule, device) pair:
the message timestamp `ts` (the task's `timestamp` argument), the wall-clock
instant `now` at which `is_in_cooldown` calls `datetime.utcnow()`, and the
two pure gate results. -/
structure CdEvent where
  ts : ℚ
  now : ℚ
  scheduled : Bool
  condResult : Bool
deriving DecidableEq

/-- An alert materialized for the pair: `triggered_at` is the message
timestamp `ts`; `eval_now` records the wall-clock instant of the evaluation
that created it. -/
structure CdAlert where
  triggered_at : ℚ
  eval_now : ℚ
deriving DecidableEq

/-- `is_in_cooldown(db, rule_id, device_id, cooldown_minutes)`: zero cooldown
never blocks; no stored row never blocks; otherwise blocked iff the elapsed
wall-clock seconds since the stored `last_triggered` are below
`cooldown_minutes * 60`. -/
def is_in_cooldown (cooldown_minutes : ℤ) (last : Option ℚ) (now : ℚ) : Bool :=
  if cooldown_minutes = 0 then false
  else
    match last with
    | Option.none => false
    | some l => decide (now - l < (cooldown_minutes : ℚ) * 60)

/-- The per-rule body of `evaluate_rules_task` for the pair: schedule gate,
cooldown gate, condition gate; on fire, `create_alert_sync` materializes the
alert with `triggered_at = ts` and `upsert_cooldown_sync` stores
`last_triggered = ts`. -/
def cooldownStep (cooldown_minutes : ℤ) (acc : Option ℚ × List CdAlert)
    (e : CdEvent) : Option ℚ × List CdAlert :=
  let (last, alerts) := acc
  if !e.scheduled then (last, alerts)
  else if is_in_cooldown cooldown_minutes last e.now then (last, alerts)
  else if e.condResult then
    (some e.ts, alerts ++ [{ triggered_at := e.ts, eval_now := e.now }])
  else (last, alerts)

/-- A serial history of task invocations for the pair (single consumer, as
the spec's invariant assumes), starting with no stored cooldown row. -/
def cooldownRun (cooldown_minutes : ℤ) (events : List CdEvent) :
    Option ℚ × List CdAlert :=
  events.foldl (cooldownStep cooldown_minutes) (Option.none, [])

/-! ## Concrete fixtures used by the counterexamples and witnesses -/

/-- A state holding the single factory (id 1, slug vpc) and nothing else. -/
def vpcState : SysState :=
  { cacheF := [], cacheD := [],
    factories := [{ id := 1, name := "VPC", slug := "vpc", timezone := "UTC" }],
    devices := [], device_params := [], nextDeviceId := 1, nextParamId := 1,
    influx := [], tasks := [] }

/-- A state whose identity cache still holds a factory for slug ghost while
the relational store holds no factory at all (a positive cache entry inside
its 60-second TTL outliving the row). -/
def ghostCacheState : SysState :=
  { cacheF := [("ghost", { id := 7, name := "Ghost", slug := "ghost", timezone := "UTC" })],
    cacheD := [], factories := [], devices := [], device_params := [],
    nextDeviceId := 1, nextParamId := 1, influx := [], tasks := [] }

/-- A validated metrics map whose first value is an integer beyond the double
range (Python `float(10 ** 400)` raises OverflowError) and whose second is an
ordinary int. -/
def bigIntMetrics : List (String × JNum) :=
  [("x", JNum.i (10 ^ 400)), ("temperature", JNum.i 45)]

/-- JSON metrics member with the single entry temperature = 45.5. -/
def tempMetrics : List (String × JVal) :=
  [("temperature", JVal.num (JNum.f (PyFloat.finite (91 / 2))))]

/-- A well-formed payload without a timestamp member. -/
def goodNoTsPayload : RawPayload :=
  RawPayload.obj { timestamp := Option.none, metrics := some tempMetrics }

/-- A payload whose timestamp member is present but unparseable. -/
def badTsPayload : RawPayload :=
  RawPayload.obj
    { timestamp := some (JVal.str "not-a-date"), metrics := some tempMetrics }

/-- A nested subtree whose single leaf raises KeyError (its value key is
absent) when evaluated against any metrics containing t. -/
def badSubtree : Cond :=
  Cond.node Option.none
    (condList [Cond.leaf (some (PyVal.str "t")) (some (PyVal.str "gt")) Option.none])

/-- An OR tree whose first child is the raising subtree and whose second
child is a satisfied leaf. -/
def mixedTree : Cond :=
  Cond.node (some (PyVal.str "OR"))
    (condList [badSubtree,
      Cond.leaf (some (PyVal.str "t")) (some (PyVal.str "gt")) (some (PyVal.int 1))])

/-- An OR rule with one matching and one non-matching leaf under the metrics
a = 1, b = 1. -/
def orRule : Cond :=
  Cond.node (some (PyVal.str "OR"))
    (condList [Cond.leaf (some (PyVal.str "a")) (some (PyVal.str "gt")) (some (PyVal.int 0)),
      Cond.leaf (some (PyVal.str "b")) (some (PyVal.str "gt")) (some (PyVal.int 5))])

/-- The metrics map a = 1, b = 1. -/
def abMetrics : Metrics := [("a", PyVal.int 1), ("b", PyVal.int 1)]

/-- First `discover_parameters` call on an empty table. -/
def discoverOnce : List ParamRow × ℤ × List (String × Bool) :=
  discover_parameters [] 1 1 1 [("temperature", JNum.f (PyFloat.finite (91 / 2)))] 100

/-- Second, identical `discover_parameters` call on the resulting table. -/
def discoverTwice : List ParamRow × ℤ × List (String × Bool) :=
  discover_parameters discoverOnce.1 discoverOnce.2.1 1 1
    [("temperature", JNum.f (PyFloat.finite (91 / 2)))] 200

/-- Two rule-engine invocations for one (rule, device): the first at wall
clock 0 with message timestamp 0, the second at wall clock 700 s with a
message timestamp of only 60 s. -/
def laggedEvents : List CdEvent :=
  [{ ts := 0, now := 0, scheduled := true, condResult := true },
   { ts := 60, now := 700, scheduled := true, condResult := true }]

/-! ## Spec-side rendering for the amended message claim -/

/-- Modelled from the amended claim: the message body renders EVERY top-level
child that carries a parameter, operator and value — matching or not — as
`"<parameter> (<actual>) <operator> <threshold>"` with the raw metric value
(or `"?"` when absent) as actual; nested nodes are omitted. -/
def amendedParts (m : Metrics) : CondList → List String
  | CondList.nil => []
  | CondList.cons c cs =>
    match c with
    | Cond.leaf (some pv) (some ov) (some vv) =>
      (pyStr pv ++ " (" ++ pyStr ((metricsGet m pv).getD (PyVal.str "?")) ++ ") " ++
        pyStr ov ++ " " ++ pyStr vv) :: amendedParts m cs
    | _ => amendedParts m cs

/-- Every top-level child that carries a parameter key also carries operator
and value keys (the shape of every leaf the rule grammar admits). -/
def wellFormedLeaves : CondList → Prop
  | CondList.nil => True
  | CondList.cons c cs =>
    (match c with
     | Cond.leaf (some _) o v => o.isSome ∧ v.isSome
     | _ => True) ∧ wellFormedLeaves cs

/-! ## State surgery for the is_active frame property -/

/-- Set the is_active flag of the device row with the given id. -/
def flipRowAt (did : ℤ) (b : Bool) (d : DeviceRow) : DeviceRow :=
  if d.id = did then { d with is_active := b } else d

/-- Set the is_active flag of a cached device object with the given id. -/
def flipObjAt (did : ℤ) (b : Bool) (o : DeviceObj) : DeviceObj :=
  if o.id = did then { o with is_active := b } else o

/-- Set the is_active flag of the device with the given id everywhere it is
stored: in the devices table and in every cached copy. -/
def setDeviceActive (st : SysState) (did : ℤ) (b : Bool) : SysState :=
  { st with
    devices := st.devices.map (flipRowAt did b),
    cacheD := st.cacheD.map (fun e => (e.1, flipObjAt did b e.2)) }

/-- The cooldown guarantee actually maintained between consecutive alerts of
one (rule, device): the wall-clock instant of the evaluation that created an
alert is at least the cooldown ahead of the previous alert's triggered_at
(which is what the gate's stored last_triggered equals). -/
def cdInv (c : ℤ) (acc : Option ℚ × List CdAlert) : Prop :=
  List.Chain' (fun a b => (c : ℚ) * 60 ≤ b.eval_now - a.triggered_at) acc.2 ∧
  ∀ a, acc.2.getLast? = some a → acc.1 = some a.triggered_at

/-! # Theorems -/

/-! ## Helper lemmas -/

theorem ltb_nan_left (w : PyFloat) : PyFloat.ltb PyFloat.nan w = false := by
  cases w <;> rfl

theorem ltb_nan_right (w : PyFloat) : PyFloat.ltb w PyFloat.nan = false := by
  cases w <;> rfl

theorem leb_nan_left (w : PyFloat) : PyFloat.leb PyFloat.nan w = false := by
  cases w <;> rfl

theorem leb_nan_right (w : PyFloat) : PyFloat.leb w PyFloat.nan = false := by
  cases w <;> rfl

theorem eqb_nan_left (w : PyFloat) : PyFloat.eqb PyFloat.nan w = false := by
  cases w <;> rfl

theorem pyFloatOf_float (x : PyFloat) :
    pyFloatOf (PyVal.float x) = Except.ok x := rfl

theorem childResults_error_of_leaf (m : Metrics) (p o v : Option PyVal)
    (herr : evalLeaf m p o v = Except.error ()) :
    ∀ cs : CondList, CondList.Memb (Cond.leaf p o v) cs →
      childResults m cs = Except.error ()
  | CondList.nil, h => h.elim
  | CondList.cons c cs, h => by
    rcases h with heq | hmem
    · subst heq
      simp [childResults, herr]
    · have hcs := childResults_error_of_leaf m p o v herr cs hmem
      cases c with
      | node op conds => simp [childResults, hcs]
      | leaf p2 o2 v2 =>
        rcases h2 : evalLeaf m p2 o2 v2 with e | r
        · cases e; simp [childResults, h2]
        · simp [childResults, h2, hcs]

theorem renderLeafParts_eq (m : Metrics) :
    ∀ cs : CondList, wellFormedLeaves cs →
      renderLeafParts m cs = Except.ok (amendedParts m cs)
  | CondList.nil, _ => rfl
  | CondList.cons c cs, h => by
    rcases h with ⟨hc, hcs⟩
    have ih := renderLeafParts_eq m cs hcs
    cases c with
    | node op conds => simp [renderLeafParts, amendedParts, ih]
    | leaf p o v =>
      cases p with
      | none => simp [renderLeafParts, amendedParts, ih]
      | some pv =>
        rcases hc with ⟨ho, hv⟩
        rcases Option.isSome_iff_exists.mp ho with ⟨ov, rfl⟩
        rcases Option.isSome_iff_exists.mp hv with ⟨vv, rfl⟩
        simp [renderLeafParts, amendedParts, ih]

/-! ## Claim C2 — NaN comparisons -/

/-- Claim C2, counterexample: the claim states that the neq comparison on a
NaN metric value is false, but evaluating the single-leaf rule
temp neq 5 against metrics temp = NaN yields true (Python NaN != 5 is
True). -/
theorem nan_neq_counterexample :
    evaluate_conditions
      (Cond.node (some (PyVal.str "AND"))
        (condList [Cond.leaf (some (PyVal.str "temp")) (some (PyVal.str "neq"))
          (some (PyVal.int 5))]))
      [("temp", PyVal.float PyFloat.nan)] = true := by decide

/-- Claim C2, amended: for a leaf whose parameter is bound to NaN (and whose
threshold coerces to a float), the five operators gt, lt, gte, lte and eq
each evaluate to false, while neq evaluates to TRUE — the exact negation of
eq, as IEEE 754 and Python define it. -/
theorem nan_comparisons (m : Metrics) (param : String) (v : PyVal) (w : PyFloat)
    (hm : lookupStr m param = some (PyVal.float PyFloat.nan))
    (hv : pyFloatOf v = Except.ok w) :
    (∀ op ∈ (["gt", "lt", "gte", "lte", "eq"] : List String),
      evalLeaf m (some (PyVal.str param)) (some (PyVal.str op)) (some v) =
        Except.ok false) ∧
    evalLeaf m (some (PyVal.str param)) (some (PyVal.str "neq")) (some v) =
      Except.ok true := by
  constructor
  · intro op hop
    fin_cases hop <;>
      simp [evalLeaf, metricsGet, hm, opLookup, pyFloatOf_float, hv,
        PyFloat.gtb, PyFloat.geb, PyFloat.neb, ltb_nan_left, ltb_nan_right,
        leb_nan_left, leb_nan_right, eqb_nan_left]
  · simp [evalLeaf, metricsGet, hm, opLookup, pyFloatOf_float, hv,
      PyFloat.neb, eqb_nan_left]

/-- Witness for the amended C2 theorem at metrics temp = NaN against the
threshold 5. -/
theorem nan_comparisons_witness :
    lookupStr [("temp", PyVal.float PyFloat.nan)] "temp" =
      some (PyVal.float PyFloat.nan) ∧
    pyFloatOf (PyVal.int 5) = Except.ok (PyFloat.finite 5) ∧
    ((∀ op ∈ (["gt", "lt", "gte", "lte", "eq"] : List String),
      evalLeaf [("temp", PyVal.float PyFloat.nan)] (some (PyVal.str "temp"))
        (some (PyVal.str op)) (some (PyVal.int 5)) = Except.ok false) ∧
    evalLeaf [("temp", PyVal.float PyFloat.nan)] (some (PyVal.str "temp"))
      (some (PyVal.str "neq")) (some (PyVal.int 5)) = Except.ok true) :=
  ⟨rfl, rfl, nan_comparisons [("temp", PyVal.float PyFloat.nan)] "temp"
    (PyVal.int 5) (PyFloat.finite 5) rfl rfl⟩

/-! ## Claim C3 — exception containment in the evaluator -/

/-- Claim C3, counterexample: the claim states that any exception raised
during traversal makes the WHOLE tree evaluate to false, but the raising
nested subtree (its leaf lacks a value key, so the leaf raises KeyError) is
caught by the recursive call's own try/except: the subtree contributes
false, and the enclosing OR still evaluates the whole tree to true. -/
theorem nested_exception_counterexample :
    CondList.Memb badSubtree
      (condList [badSubtree,
        Cond.leaf (some (PyVal.str "t")) (some (PyVal.str "gt")) (some (PyVal.int 1))]) ∧
    rawEval [("t", PyVal.int 5)] badSubtree = Except.error () ∧
    evaluate_conditions mixedTree [("t", PyVal.int 5)] = true :=
  ⟨Or.inl rfl, rfl, by decide⟩

/-- Claim C3, amended: the evaluator is total and never raises — every Lean
translation is a function into Bool — and an exception is caught by the
INNERMOST enclosing evaluator call: a raise that reaches the top-level call
makes the whole tree false, and a raising leaf makes its enclosing node
false, but (per the counterexample) a raise inside a nested subtree does not
in general make the whole tree false. -/
theorem evaluator_exception_containment :
    (∀ (t : Cond) (m : Metrics), rawEval m t = Except.error () →
      evaluate_conditions t m = false) ∧
    (∀ (m : Metrics) (opF : Option PyVal) (cs : CondList) (p o v : Option PyVal),
      CondList.Memb (Cond.leaf p o v) cs →
      evalLeaf m p o v = Except.error () →
      evaluate_conditions (Cond.node opF cs) m = false) := by
  constructor
  · intro t m h
    simp [evaluate_conditions, h]
  · intro m opF cs p o v hmem herr
    have hcs := childResults_error_of_leaf m p o v herr cs hmem
    have hne : cs.isEmpty = false := by
      cases cs with
      | nil => exact hmem.elim
      | cons c cs => rfl
    rcases hU : pyUpper (opF.getD (PyVal.str "AND")) with u | s
    · simp [evaluate_conditions, rawEval, hU]
    · simp [evaluate_conditions, rawEval, hU, hne, hcs]

/-- Witness for the amended C3 theorem: the raising tree of the
counterexample evaluates to false at top level, and a node directly
containing a raising leaf evaluates to false. -/
theorem evaluator_exception_containment_witness :
    (rawEval [("t", PyVal.int 5)] badSubtree = Except.error () ∧
      evaluate_conditions badSubtree [("t", PyVal.int 5)] = false) ∧
    evaluate_conditions
      (Cond.node Option.none
        (condList [Cond.leaf (some (PyVal.str "t")) (some (PyVal.str "gt")) Option.none]))
      [("t", PyVal.int 5)] = false :=
  ⟨⟨rfl, evaluator_exception_containment.1 badSubtree [("t", PyVal.int 5)] rfl⟩,
   evaluator_exception_containment.2 [("t", PyVal.int 5)] Option.none
     (condList [Cond.leaf (some (PyVal.str "t")) (some (PyVal.str "gt")) Option.none])
     (some (PyVal.str "t")) (some (PyVal.str "gt")) Option.none (Or.inl rfl) rfl⟩

/-! ## Claim C4 — shape of time-series points -/

/-- Claim C4, counterexample: the claim promises one point per (key, value)
pair, but a pair whose value is an integer beyond the double range makes
`float(value)` raise OverflowError inside the per-point try/except, and the
point is logged and skipped: two pairs yield one point. -/
theorem build_points_overflow_counterexample :
    floatOfNum (JNum.i (10 ^ 400)) = Except.error () ∧
    bigIntMetrics.length = 2 ∧
    (build_points 1 1 bigIntMetrics 0).length = 1 :=
  ⟨rfl, rfl, by decide⟩

/-- Claim C4, amended: every point built from a metrics map has measurement
device_metrics, exactly the three tags — the tenant tag (named factory_id in
the code; the spec's glossary identifies tenant with factory), device_id and
parameter, all rendered as strings — a single field value holding the metric
as a float, and the message timestamp; one point per (parameter-key, value)
pair WHOSE VALUE CONVERTS TO A DOUBLE, a pair whose conversion raises (an
integer beyond the double range) being skipped without aborting the rest of
the batch. -/
theorem build_points_shape (f d : ℤ) (t : ℚ) :
    ∀ m : List (String × JNum),
      build_points f d m t = m.filterMap (fun kv =>
        match floatOfNum kv.2 with
        | Except.ok x =>
          some
            { measurement := "device_metrics",
              tags := [("factory_id", toString f), ("device_id", toString d),
                ("parameter", kv.1)],
              fields := [("value", x)],
              time := some t }
        | Except.error _ => Option.none)
  | [] => rfl
  | kv :: rest => by
    rcases h : floatOfNum kv.2 with e | x <;>
      simp [build_points, List.filterMap_cons, h, build_points_shape f d t rest,
        Point.new, Point.tag, Point.field, Point.setTime]

/-! ## Claim C5 — topic grammar -/

/-- Claim C5, counterexample: the claim requires the second and fourth
segments to be non-empty, but parse_topic never checks emptiness: the topic
with an empty slug parses successfully while the spec grammar rejects it. -/
theorem parse_topic_nonempty_counterexample :
    parse_topic "factories//devices/M01/telemetry" = Except.ok ("", "M01") ∧
    topicGrammarSpec "factories//devices/M01/telemetry" = false :=
  ⟨rfl, rfl⟩

/-- Claim C5, amended: parse_topic succeeds, returning (slug, key), exactly
when the topic splits on slashes into five segments whose first, third and
fifth are the literals factories, devices and telemetry — the second and
fourth segments are unconstrained and may be empty; every other topic fails
with ValueError and is dropped. -/
theorem parse_topic_characterization (t s k : String) :
    parse_topic t = Except.ok (s, k) ↔
      splitSlash t = ["factories", s, "devices", k, "telemetry"] := by
  unfold parse_topic
  rcases h : splitSlash t with _ | ⟨a, _ | ⟨b, _ | ⟨c, _ | ⟨d, _ | ⟨e, _ | ⟨f, r⟩⟩⟩⟩⟩⟩ <;>
    simp [h, List.getD] <;> split_ifs <;> simp_all

/-! ## Claim C8 — parameter discovery is not idempotent (code bug) -/

/-- Claim C8, code bug: the second identical discover call INSERTS A SECOND
ROW for the key instead of touching only updated_at — the device_parameters
table declares no unique key on (device_id, parameter_key), so the ON
DUPLICATE KEY UPDATE clause the code relies on for its documented
idempotency never fires.  After two calls the table holds two rows for
temperature (the first call, correctly, created exactly one). -/
theorem discover_duplicate_rows :
    discoverOnce.1.length = 1 ∧
    (discoverTwice.1.filter
      (fun r => r.device_id == 1 && r.parameter_key == "temperature")).length = 2 ∧
    discoverTwice.2.2 = [("temperature", false)] := by decide

/-! ## Claim C9 — alert message rendering -/

/-- Claim C9, counterexample: the claim states that leaves whose comparison
did not match are omitted from the message, but for the fired OR rule
(a gt 0 matches, b gt 5 does not under a = 1, b = 1) the message renders
BOTH leaves rather than the matching one alone. -/
theorem alert_message_counterexample :
    evaluate_conditions orRule abMetrics = true ∧
    evaluate_conditions
      (Cond.node (some (PyVal.str "AND"))
        (condList [Cond.leaf (some (PyVal.str "b")) (some (PyVal.str "gt"))
          (some (PyVal.int 5))])) abMetrics = false ∧
    build_alert_message "R" orRule abMetrics =
      Except.ok "[R] a (1) gt 0 AND b (1) gt 5" ∧
    "[R] a (1) gt 0 AND b (1) gt 5" ≠ "[R] a (1) gt 0" :=
  ⟨by decide, by decide, rfl, by decide⟩

/-- Claim C9, amended: for every rule tree whose parameter-bearing top-level
children are fully formed, the message equals the bracketed rule name
followed by the renderings parameter (actual) operator threshold of ALL
top-level parameter-bearing children — matching or not, with actual the raw
metric value or a question mark when absent — joined by AND; nested leaves
are omitted, and with no renderable child the body is Condition triggered. -/
theorem alert_message_rendering (name : String) (opF : Option PyVal)
    (cs : CondList) (m : Metrics) (h : wellFormedLeaves cs) :
    build_alert_message name (Cond.node opF cs) m =
      Except.ok ("[" ++ name ++ "] " ++
        (if (amendedParts m cs).isEmpty then "Condition triggered"
         else String.intercalate " AND " (amendedParts m cs))) := by
  simp [build_alert_message, renderLeafParts_eq m cs h]

/-- Witness for the amended C9 theorem on the OR rule of the counterexample. -/
theorem alert_message_rendering_witness :
    wellFormedLeaves
      (condList [Cond.leaf (some (PyVal.str "a")) (some (PyVal.str "gt")) (some (PyVal.int 0)),
        Cond.leaf (some (PyVal.str "b")) (some (PyVal.str "gt")) (some (PyVal.int 5))]) ∧
    build_alert_message "R" orRule abMetrics =
      Except.ok ("[" ++ "R" ++ "] " ++
        (if (amendedParts abMetrics
              (condList [Cond.leaf (some (PyVal.str "a")) (some (PyVal.str "gt")) (some (PyVal.int 0)),
                Cond.leaf (some (PyVal.str "b")) (some (PyVal.str "gt")) (some (PyVal.int 5))])).isEmpty
         then "Condition triggered"
         else String.intercalate " AND "
           (amendedParts abMetrics
             (condList [Cond.leaf (some (PyVal.str "a")) (some (PyVal.str "gt")) (some (PyVal.int 0)),
               Cond.leaf (some (PyVal.str "b")) (some (PyVal.str "gt")) (some (PyVal.int 5))])))) :=
  ⟨⟨⟨rfl, rfl⟩, ⟨rfl, rfl⟩, trivial⟩,
   alert_message_rendering "R" (some (PyVal.str "OR")) _ abMetrics
     ⟨⟨rfl, rfl⟩, ⟨rfl, rfl⟩, trivial⟩⟩

/-! ## Claim C1 — cooldown and triggered_at -/

theorem cdStep_inv (c : ℤ) (hc : 0 < c) (acc : Option ℚ × List CdAlert)
    (e : CdEvent) (h : cdInv c acc) : cdInv c (cooldownStep c acc e) := by
  rcases acc with ⟨last, alerts⟩
  rcases h with ⟨hchain, hlast⟩
  unfold cooldownStep
  by_cases hs : e.scheduled
  · by_cases hcd : is_in_cooldown c last e.now
    · simp [hs, hcd]; exact ⟨hchain, hlast⟩
    · by_cases hcr : e.condResult
      · simp [hs, hcd, hcr]
        constructor
        · rw [List.chain'_append]
          refine ⟨hchain, List.chain'_singleton _, ?_⟩
          intro x hx y hy
          simp only [List.head?_cons, Option.mem_def, Option.some.injEq] at hy
          subst hy
          have hx' : alerts.getLast? = some x := hx
          have hlx := hlast x hx'
          subst hlx
          have hc0 : c ≠ 0 := by omega
          simp only [is_in_cooldown, hc0, if_false] at hcd
          simp only [decide_eq_true_eq] at hcd
          simp only [not_lt] at hcd
          exact hcd
        · intro a ha
          rw [List.getLast?_append_cons, List.getLast?_singleton] at ha
          cases ha
          rfl
      · simp [hs, hcd, hcr]; exact ⟨hchain, hlast⟩
  · simp [hs]; exact ⟨hchain, hlast⟩

theorem cdRun_inv (c : ℤ) (hc : 0 < c) :
    ∀ (events : List CdEvent) (acc : Option ℚ × List CdAlert), cdInv c acc →
      cdInv c (events.foldl (cooldownStep c) acc)
  | [], _, h => h
  | e :: es, acc, h => cdRun_inv c hc es _ (cdStep_inv c hc acc e h)

/-- Claim C1, counterexample: with cooldown 10 minutes, two invocations whose
message timestamps are 60 seconds apart both materialize alerts — the second
passes the gate because the WALL-CLOCK elapsed time since the stored
last_triggered is 700 s ≥ 600 s — so the materialized alerts have a pairwise
triggered_at difference of 60 s < 10 minutes, refuting the claimed
invariant. -/
theorem cooldown_pairwise_counterexample :
    (cooldownRun 10 laggedEvents).2 =
      [{ triggered_at := 0, eval_now := 0 },
       { triggered_at := 60, eval_now := 700 }] ∧
    |(60 : ℚ) - 0| < 10 * 60 := by
  have h1 : is_in_cooldown 10 Option.none 0 = false := by
    rw [is_in_cooldown]; norm_num
  have h2 : is_in_cooldown 10 (some 0) 700 = false := by
    rw [is_in_cooldown]; norm_num
  constructor
  · simp [cooldownRun, laggedEvents, cooldownStep, h1, h2]
  · norm_num

/-- Claim C1, amended: for cooldown c > 0 the gate guarantees, for each pair
of CONSECUTIVE alerts of a (rule, device), that the wall-clock evaluation
instant of the later alert is at least c minutes after the earlier alert's
triggered_at (the stored last_triggered); the claimed pairwise bound on the
triggered_at values themselves holds only when message timestamps track the
wall clock, since triggered_at is the message timestamp while the gate
measures elapsed wall-clock time. -/
theorem cooldown_gate_wallclock (c : ℤ) (events : List CdEvent) (hc : 0 < c) :
    List.Chain' (fun a b => (c : ℚ) * 60 ≤ b.eval_now - a.triggered_at)
      (cooldownRun c events).2 :=
  (cdRun_inv c hc events (Option.none, [])
    ⟨List.chain'_nil, fun a ha => by cases ha⟩).1

/-- Witness for the amended C1 theorem on the counterexample trace with
cooldown 5 minutes. -/
theorem cooldown_gate_wallclock_witness :
    (0 : ℤ) < 5 ∧
    List.Chain' (fun a b => ((5 : ℤ) : ℚ) * 60 ≤ b.eval_now - a.triggered_at)
      (cooldownRun 5 laggedEvents).2 :=
  ⟨by decide, cooldown_gate_wallclock 5 laggedEvents (by decide)⟩

/-! ## Claim C6 — optional / unparseable timestamp -/

theorem discoverInState_tasks (st : SysState) (f d : ℤ)
    (ms : List (String × JNum)) (now : ℚ) :
    (discoverInState st f d ms now).tasks = st.tasks := rfl

theorem write_batch_tasks (st : SysState) (pts : List Point) :
    (write_batch st pts).tasks = st.tasks := by
  unfold write_batch; split <;> rfl

theorem updateLastSeen_tasks (st : SysState) (d : ℤ) (ts : ℚ) :
    (updateLastSeen st d ts).tasks = st.tasks := rfl

theorem get_or_create_device_tasks (st : SysState) (f : ℤ) (k : String) (now : ℚ) :
    (get_or_create_device st f k now).2.tasks = st.tasks := by
  unfold get_or_create_device
  rcases h1 : (st.cacheD.find? (fun e => e.1 = (f, k))).map (fun e => e.2) with _ | d
  · simp only [h1]
    rcases h2 : st.devices.find? (fun d => d.factory_id = f ∧ d.device_key = k) with _ | d <;>
      simp only [h2]
  · simp only [h1]

/-- Claim C6, counterexample: the claim states that an unparseable timestamp
is replaced by the wall-clock instant and the message continues, but
validation fails on it (pydantic raises before the orchestrator's fallback
can run) and the message is dropped with no state change — while the same
payload with the timestamp member absent is processed and enqueues a task. -/
theorem unparseable_timestamp_counterexample :
    validatePayload badTsPayload = Except.error () ∧
    process_telemetry "factories/vpc/devices/M01/telemetry" badTsPayload 1000
      vpcState = vpcState ∧
    (process_telemetry "factories/vpc/devices/M01/telemetry" goodNoTsPayload 1000
      vpcState).tasks.length = 1 := by
  refine ⟨rfl, ?_, ?_⟩ <;> decide

/-- Claim C6, amended: the timestamp member is optional — for every payload
whose timestamp is ABSENT OR NULL (and whose metrics member is valid), the
orchestrator substitutes the current wall-clock UTC instant and continues
processing, enqueueing the rule-evaluation task with that substituted
timestamp; a PRESENT but unparseable timestamp instead fails validation and
the message is dropped as an invalid payload. -/
theorem timestamp_fallback (tsv : Option JVal) (ms : List (String × JVal))
    (ns : List (String × JNum)) (now : ℚ)
    (hts : tsv = Option.none ∨ tsv = some JVal.null)
    (hm : validateMetricList ms = Except.ok ns)
    (hne : ns.isEmpty = false) :
    validatePayload (RawPayload.obj { timestamp := tsv, metrics := some ms }) =
      Except.ok { timestamp := Option.none, metrics := ns } ∧
    ∀ (st : SysState) (topic slug key : String) (f : FactoryRow),
      parse_topic topic = Except.ok (slug, key) →
      (get_factory_by_slug st slug).1 = some f →
      (process_telemetry topic
          (RawPayload.obj { timestamp := tsv, metrics := some ms }) now
          st).tasks.getLast? =
        some
          { factory_id := f.id,
            device_id :=
              (get_or_create_device (get_factory_by_slug st slug).2 f.id key now).1.id,
            metrics := ns, timestamp := now } := by
  have hval : validatePayload
      (RawPayload.obj { timestamp := tsv, metrics := some ms }) =
      Except.ok { timestamp := Option.none, metrics := ns } := by
    rcases hts with rfl | rfl <;>
      simp [validatePayload, validateTimestamp, hm, hne]
  refine ⟨hval, ?_⟩
  intro st topic slug key f hp hf
  rcases hgf : get_factory_by_slug st slug with ⟨fq, st1⟩
  rw [hgf] at hf
  have hfq : fq = some f := hf
  subst hfq
  rcases hgd : get_or_create_device st1 f.id key now with ⟨dev, st2⟩
  simp only [process_telemetry, hp, hval, hgf, hgd, Option.getD_none,
    enqueueRuleEval, updateLastSeen_tasks, write_batch_tasks,
    discoverInState_tasks, List.getLast?_append_cons, List.getLast?_singleton]

/-- Witness for the amended C6 theorem: a timestamp-free payload processed
against the vpc state enqueues a task stamped with the wall-clock instant. -/
theorem timestamp_fallback_witness :
    ((Option.none : Option JVal) = Option.none ∨
      (Option.none : Option JVal) = some JVal.null) ∧
    validateMetricList tempMetrics =
      Except.ok [("temperature", JNum.f (PyFloat.finite (91 / 2)))] ∧
    ([("temperature", JNum.f (PyFloat.finite (91 / 2)))] :
      List (String × JNum)).isEmpty = false ∧
    parse_topic "factories/vpc/devices/M01/telemetry" = Except.ok ("vpc", "M01") ∧
    (get_factory_by_slug vpcState "vpc").1 =
      some { id := 1, name := "VPC", slug := "vpc", timezone := "UTC" } ∧
    (process_telemetry "factories/vpc/devices/M01/telemetry" goodNoTsPayload 1000
        vpcState).tasks.getLast? =
      some
        { factory_id := 1,
          device_id :=
            (get_or_create_device (get_factory_by_slug vpcState "vpc").2 1 "M01" 1000).1.id,
          metrics := [("temperature", JNum.f (PyFloat.finite (91 / 2)))],
          timestamp := 1000 } :=
  ⟨Or.inl rfl, rfl, rfl, rfl, rfl,
   (timestamp_fallback Option.none tempMetrics
      [("temperature", JNum.f (PyFloat.finite (91 / 2)))] 1000 (Or.inl rfl) rfl
      rfl).2 vpcState "factories/vpc/devices/M01/telemetry" "vpc" "M01"
      { id := 1, name := "VPC", slug := "vpc", timezone := "UTC" } rfl rfl⟩

/-! ## Claim C7 — unknown tenant -/

/-- Claim C7, counterexample: the claim quantifies over every message whose
slug is not present in the store, but when the identity cache still holds a
(stale) entry for the slug the pipeline proceeds on the cached tenant: it
auto-creates a device, writes points and enqueues a task even though the
store has no such factory. -/
theorem stale_cache_counterexample :
    ghostCacheState.factories.find? (fun f => f.slug = "ghost") = Option.none ∧
    (process_telemetry "factories/ghost/devices/M01/telemetry" goodNoTsPayload
      1000 ghostCacheState).devices.length = 1 ∧
    (process_telemetry "factories/ghost/devices/M01/telemetry" goodNoTsPayload
      1000 ghostCacheState).tasks.length = 1 := by
  refine ⟨rfl, ?_, ?_⟩ <;> decide

/-- Claim C7, amended: for every well-formed message whose topic names a slug
that is present NEITHER in the identity cache NOR in the store, ingestion
returns after the warning log with no state change whatsoever — no device
created, no parameter row, no point, no last_seen update, no task. -/
theorem unknown_tenant_no_effect (st : SysState) (topic : String)
    (payload : RawPayload) (now : ℚ) (slug key : String)
    (hp : parse_topic topic = Except.ok (slug, key))
    (hc : st.cacheF.find? (fun e => e.1 = slug) = Option.none)
    (hd : st.factories.find? (fun f => f.slug = slug) = Option.none) :
    process_telemetry topic payload now st = st := by
  rcases hv : validatePayload payload with e | data <;>
    simp [process_telemetry, hp, hv, get_factory_by_slug, hc, hd]

/-- Witness for the amended C7 theorem: the ghost slug against the vpc
state. -/
theorem unknown_tenant_no_effect_witness :
    parse_topic "factories/ghost/devices/M01/telemetry" =
      Except.ok ("ghost", "M01") ∧
    vpcState.cacheF.find? (fun e => e.1 = "ghost") = Option.none ∧
    vpcState.factories.find? (fun f => f.slug = "ghost") = Option.none ∧
    process_telemetry "factories/ghost/devices/M01/telemetry" goodNoTsPayload
      1000 vpcState = vpcState :=
  ⟨rfl, rfl, rfl,
   unknown_tenant_no_effect vpcState "factories/ghost/devices/M01/telemetry"
     goodNoTsPayload 1000 "ghost" "M01" rfl rfl rfl⟩

/-! ## Claim C10 — the pipeline never consults is_active -/

theorem flipRowAt_id (did : ℤ) (b : Bool) (d : DeviceRow) :
    (flipRowAt did b d).id = d.id := by
  unfold flipRowAt; split <;> rfl

theorem flipRowAt_factory_id (did : ℤ) (b : Bool) (d : DeviceRow) :
    (flipRowAt did b d).factory_id = d.factory_id := by
  unfold flipRowAt; split <;> rfl

theorem flipRowAt_device_key (did : ℤ) (b : Bool) (d : DeviceRow) :
    (flipRowAt did b d).device_key = d.device_key := by
  unfold flipRowAt; split <;> rfl

theorem flipObjAt_id (did : ℤ) (b : Bool) (o : DeviceObj) :
    (flipObjAt did b o).id = o.id := by
  unfold flipObjAt; split <;> rfl

theorem deviceObjOfRow_flip (did : ℤ) (b : Bool) (d : DeviceRow) :
    deviceObjOfRow (flipRowAt did b d) = flipObjAt did b (deviceObjOfRow d) := by
  unfold flipRowAt flipObjAt deviceObjOfRow
  by_cases h : d.id = did <;> simp [h]

theorem find?_cacheD_flip (did : ℤ) (b : Bool) (k : ℤ × String)
    (l : List ((ℤ × String) × DeviceObj)) :
    ((l.map (fun e => (e.1, flipObjAt did b e.2))).find?
        (fun e => e.1 = k)).map (fun e => e.2) =
      ((l.find? (fun e => e.1 = k)).map (fun e => e.2)).map (flipObjAt did b) := by
  rw [List.find?_map, Option.map_map, Option.map_map]
  rfl

theorem find?_devices_flip (did : ℤ) (b : Bool) (fid : ℤ) (key : String)
    (l : List DeviceRow) :
    (l.map (flipRowAt did b)).find?
        (fun d => d.factory_id = fid ∧ d.device_key = key) =
      (l.find? (fun d => d.factory_id = fid ∧ d.device_key = key)).map
        (flipRowAt did b) := by
  have hp : ((fun (d : DeviceRow) =>
      decide (d.factory_id = fid ∧ d.device_key = key)) ∘ flipRowAt did b) =
      (fun (d : DeviceRow) => decide (d.factory_id = fid ∧ d.device_key = key)) := by
    funext d
    simp [Function.comp, flipRowAt_factory_id, flipRowAt_device_key]
  rw [List.find?_map, hp]

theorem get_factory_by_slug_flip (st : SysState) (did : ℤ) (b : Bool)
    (slug : String) :
    get_factory_by_slug (setDeviceActive st did b) slug =
      ((get_factory_by_slug st slug).1,
       setDeviceActive (get_factory_by_slug st slug).2 did b) := by
  unfold get_factory_by_slug setDeviceActive
  rcases h1 : (st.cacheF.find? (fun e => e.1 = slug)).map (fun e => e.2) with _ | f
  · simp only [h1]
    rcases h2 : st.factories.find? (fun f => f.slug = slug) with _ | f <;> simp only [h2]
  · simp only [h1]

theorem get_factory_by_slug_nextDeviceId (st : SysState) (slug : String) :
    (get_factory_by_slug st slug).2.nextDeviceId = st.nextDeviceId := by
  unfold get_factory_by_slug
  rcases h1 : (st.cacheF.find? (fun e => e.1 = slug)).map (fun e => e.2) with _ | f
  · simp only [h1]
    rcases h2 : st.factories.find? (fun f => f.slug = slug) with _ | f <;> simp only [h2]
  · simp only [h1]

theorem get_or_create_device_flip (st : SysState) (did : ℤ) (b : Bool)
    (fid : ℤ) (key : String) (now : ℚ) (hne : did ≠ st.nextDeviceId) :
    get_or_create_device (setDeviceActive st did b) fid key now =
      (flipObjAt did b (get_or_create_device st fid key now).1,
       setDeviceActive (get_or_create_device st fid key now).2 did b) := by
  unfold get_or_create_device setDeviceActive
  simp only [find?_cacheD_flip]
  rcases h1 : (st.cacheD.find? (fun e => e.1 = (fid, key))).map (fun e => e.2) with _ | d
  · simp only [h1, Option.map_none']
    simp only [find?_devices_flip]
    rcases h2 : st.devices.find? (fun d => d.factory_id = fid ∧ d.device_key = key) with _ | d
    · simp only [h2, Option.map_none']
      have hrow : flipRowAt did b
          { id := st.nextDeviceId, factory_id := fid, device_key := key,
            name := Option.none, is_active := true, last_seen := some now } =
          { id := st.nextDeviceId, factory_id := fid, device_key := key,
            name := Option.none, is_active := true, last_seen := some now } := by
        have hid : st.nextDeviceId ≠ did := Ne.symm hne
        unfold flipRowAt
        simp [hid]
      have hobj : flipObjAt did b (deviceObjOfRow
          { id := st.nextDeviceId, factory_id := fid, device_key := key,
            name := Option.none, is_active := true, last_seen := some now }) =
          deviceObjOfRow
          { id := st.nextDeviceId, factory_id := fid, device_key := key,
            name := Option.none, is_active := true, last_seen := some now } := by
        rw [← deviceObjOfRow_flip, hrow]
      simp [List.map_append, hrow, hobj]
    · simp only [h2, Option.map_some']
      simp [List.map_append, deviceObjOfRow_flip]
  · simp only [h1, Option.map_some']

theorem discoverInState_flip (st : SysState) (did : ℤ) (b : Bool)
    (fid dev : ℤ) (ms : List (String × JNum)) (now : ℚ) :
    discoverInState (setDeviceActive st did b) fid dev ms now =
      setDeviceActive (discoverInState st fid dev ms now) did b := rfl

theorem write_batch_flip (st : SysState) (did : ℤ) (b : Bool)
    (pts : List Point) :
    write_batch (setDeviceActive st did b) pts =
      setDeviceActive (write_batch st pts) did b := by
  unfold write_batch setDeviceActive
  split <;> rfl

theorem flipRowAt_updateRow_comm (did : ℤ) (b : Bool) (dev : ℤ) (ts : ℚ)
    (d : DeviceRow) :
    (if (flipRowAt did b d).id = dev then
        { flipRowAt did b d with last_seen := some ts }
      else flipRowAt did b d) =
      flipRowAt did b
        (if d.id = dev then { d with last_seen := some ts } else d) := by
  unfold flipRowAt
  by_cases h1 : d.id = did <;> by_cases h2 : d.id = dev
  · have h3 : did = dev := h1.symm.trans h2
    simp [h1, h2, h3]
  · have h3 : ¬did = dev := fun h => h2 (h1.trans h)
    simp [h1, h2, h3]
  · have h3 : ¬dev = did := fun h => h1 (h2.trans h)
    simp [h1, h2, h3]
  · simp [h1, h2]

theorem updateLastSeen_flip (st : SysState) (did : ℤ) (b : Bool)
    (dev : ℤ) (ts : ℚ) :
    updateLastSeen (setDeviceActive st did b) dev ts =
      setDeviceActive (updateLastSeen st dev ts) did b := by
  unfold updateLastSeen setDeviceActive
  simp only [List.map_map]
  have hfun : ((fun (d : DeviceRow) =>
      if d.id = dev then { d with last_seen := some ts } else d) ∘ flipRowAt did b) =
      (flipRowAt did b ∘ (fun (d : DeviceRow) =>
        if d.id = dev then { d with last_seen := some ts } else d)) := by
    funext d
    exact flipRowAt_updateRow_comm did b dev ts d
  congr 1
  rw [hfun]

theorem enqueueRuleEval_flip (st : SysState) (did : ℤ) (b : Bool)
    (t : RuleEvalTask) :
    enqueueRuleEval (setDeviceActive st did b) t =
      setDeviceActive (enqueueRuleEval st t) did b := rfl

/-- Claim C10, confirmed: the ingestion pipeline never consults a device's
active flag.  Flipping the stored is_active flag of any already-registered
device (in the table and in every cached copy) commutes with processing a
message: the pipeline behaves identically — same device resolution with no
re-creation, same parameter discovery, same points, same last_seen update,
same enqueued task — and only the stored flag itself differs.  The side
condition keeps the surgery away from the id a fresh auto-registration would
allocate. -/
theorem is_active_not_consulted (topic : String) (payload : RawPayload)
    (now : ℚ) (st : SysState) (did : ℤ) (b : Bool)
    (hne : did ≠ st.nextDeviceId) :
    process_telemetry topic payload now (setDeviceActive st did b) =
      setDeviceActive (process_telemetry topic payload now st) did b := by
  unfold process_telemetry
  rcases hp : parse_topic topic with e | ⟨slug, key⟩
  · rfl
  · rcases hv : validatePayload payload with e | data
    · rfl
    · simp only [get_factory_by_slug_flip]
      rcases hgf : get_factory_by_slug st slug with ⟨fq, st1⟩
      rcases fq with _ | f
      · rfl
      · have hne1 : did ≠ st1.nextDeviceId := by
          have := get_factory_by_slug_nextDeviceId st slug
          rw [hgf] at this
          rw [show st1.nextDeviceId = st.nextDeviceId from this]
          exact hne
        simp only [get_or_create_device_flip st1 did b f.id key now hne1,
          flipObjAt_id, discoverInState_flip, write_batch_flip,
          updateLastSeen_flip, enqueueRuleEval_flip]

/-- Witness for the C10 theorem: deactivating the device stored in a state
with one registered device commutes with processing a message for it. -/
theorem is_active_not_consulted_witness :
    ((0 : ℤ) ≠ vpcState.nextDeviceId) ∧
    process_telemetry "factories/vpc/devices/M01/telemetry" goodNoTsPayload
        1000 (setDeviceActive vpcState 0 false) =
      setDeviceActive
        (process_telemetry "factories/vpc/devices/M01/telemetry" goodNoTsPayload
          1000 vpcState) 0 false :=
  ⟨by decide,
   is_active_not_consulted "factories/vpc/devices/M01/telemetry" goodNoTsPayload
     1000 vpcState 0 false (by decide)⟩

end FactoryRD
